import Mathlib

/-!
Shallow embedding of the Gemma 3 Vision Q&A demo application
(src/gemma3_vision_demo/app.py) together with proofs about its
request/response flow.

The application's own code is pure orchestration: every computationally
interesting step is delegated to external collaborators (the mlx-vlm
library functions `apply_chat_template` and `generate`, PIL's
`Image.save`, and the file system through `tempfile`/`os`).  The
embedding therefore models the collaborators as an explicit environment:
each collaborator call is a function that may fail (`Except`) and may
transform the file system, and every call the orchestration code makes
is recorded in an event trace so that "was invoked exactly once with
these arguments" becomes a statement about the trace.
-/

/-- File system model: the list of paths that currently exist on disk. -/
abbrev FS := List String

/-- The characters stripped by Python `str.strip()`: exactly those for
which Python `str.isspace()` holds. -/
def isPySpace (c : Char) : Bool :=
  c = ' ' || c = '\t' || c = '\n' || c = '\x0b' || c = '\x0c' || c = '\r' ||
  c = '\x1c' || c = '\x1d' || c = '\x1e' || c = '\x1f' ||
  c = '\x85' || c = '\xa0' || c = '\u1680' ||
  c = '\u2000' || c = '\u2001' || c = '\u2002' || c = '\u2003' ||
  c = '\u2004' || c = '\u2005' || c = '\u2006' || c = '\u2007' ||
  c = '\u2008' || c = '\u2009' || c = '\u200a' ||
  c = '\u2028' || c = '\u2029' || c = '\u202f' || c = '\u205f' || c = '\u3000'

/-- Python `s.strip()`: remove leading and trailing whitespace. -/
def pyStrip (s : String) : String :=
  String.mk (((s.toList.dropWhile isPySpace).reverse.dropWhile isPySpace).reverse)

/-- PIL image model: the attributes the application and its tests use
(`Image.new` is called with a mode-determined size and colour). -/
structure PILImage where
  width : Nat
  height : Nat
  color : String
  deriving DecidableEq

/-- The keyword parameters `analyze_image` passes to `mlx_vlm.generate`
(app.py lines 179-181).  The Python float `temperature` is modelled as a
rational number; the only value the application ever uses is `0.0`,
which is exactly representable. -/
structure GenParams where
  verbose : Bool
  max_tokens : Nat
  temperature : ℚ
  deriving DecidableEq

/-- The result object returned by `mlx_vlm.generate`; `analyze_image`
reads its `text` field (app.py line 184). -/
structure GenResult where
  text : String
  deriving DecidableEq

/-- One observable call made by `analyze_image` to a collaborator,
recorded in order:
  * `tmpCreate`: `tempfile.NamedTemporaryFile(suffix=".png", delete=False)`
    created the file at `path` (line 159);
  * `saveCall`: `image.save(image_path, format="PNG")` was invoked (line 162);
  * `templateCall`: `apply_chat_template(processor, config, question,
    num_images=...)` was invoked (lines 166-171);
  * `genCall`: `generate(model, processor, prompt, image_path, ...)` was
    invoked (lines 174-182);
  * `cleanup`: the finally-block ran its existence check; `existed`
    records whether the file was still present (and hence whether
    `os.remove` was attempted) (lines 185-188). -/
inductive Event (M P C Q : Type) where
  | tmpCreate (path : String)
  | saveCall (path : String)
  | templateCall (processor : P) (config : C) (question : String) (num_images : Nat)
  | genCall (model : M) (processor : P) (prompt : Q) (image_path : String) (params : GenParams)
  | cleanup (path : String) (existed : Bool)
  deriving DecidableEq

/-- The external collaborators, as one environment per call:
  * `tmpPath` is the fresh name `tempfile.NamedTemporaryFile` hands out;
  * `save` is PIL `Image.save`, which may raise;
  * `apply_chat_template` and `generate` are the mlx-vlm entry points;
    both may raise and, being opaque external code, may also transform
    the file system. -/
structure Env (M P C E Q : Type) where
  tmpPath : String
  save : PILImage → String → Except E Unit
  apply_chat_template : P → C → String → Nat → FS → Except E Q × FS
  generate : M → P → Q → String → GenParams → FS → Except E GenResult × FS

/-- The service object: the three fields `__init__` assigns
(app.py lines 137-138). -/
structure Gemma3VisionDemo (M P C : Type) where
  model : M
  processor : P
  config : C
  deriving DecidableEq

variable {M P C E Q : Type}

/-- `Gemma3VisionDemo.__init__` (app.py lines 134-139): call the model
provider once and store the model handle, preprocessor handle and
configuration. -/
def Gemma3VisionDemo.init (load : String → M × P) (load_config : String → C)
    (model_path : String) : Gemma3VisionDemo M P C :=
  { model := (load model_path).1
    processor := (load model_path).2
    config := load_config model_path }

/-- The fixed generation parameters (app.py lines 179-181):
`verbose=False, max_tokens=300, temperature=0.0`. -/
def stdGenParams : GenParams :=
  { verbose := false, max_tokens := 300, temperature := 0 }

/-- The default-question policy (app.py lines 155-156):
`if not question.strip(): question = "Describe this image in detail."` -/
def effectiveQuestion (question : String) : String :=
  if pyStrip question = "" then ("Describe this image in detail.") else question

/-- The finally-block body (app.py lines 187-188):
`if os.path.exists(image_path): os.remove(image_path)`.
Returns the resulting file system and whether the file existed (i.e.
whether deletion was attempted). -/
def cleanupTemp (image_path : String) (fs : FS) : FS × Bool :=
  if image_path ∈ fs then (fs.filter (fun p => p != image_path), true)
  else (fs, false)

/-- The try-block body (app.py lines 164-184): format the prompt with
`apply_chat_template(processor, config, question, num_images=1)`, then
call `generate(model, processor, prompt, image_path, verbose=False,
max_tokens=300, temperature=0.0)` and extract `.text`.  Either call may
raise, which aborts the body with that error. -/
def runBody (env : Env M P C E Q) (self : Gemma3VisionDemo M P C)
    (question : String) (image_path : String) (fs : FS) :
    Except E String × FS × List (Event M P C Q) :=
  match env.apply_chat_template self.processor self.config question 1 fs with
  | (Except.error e, fsA) =>
      (Except.error e, fsA,
        [Event.templateCall self.processor self.config question 1])
  | (Except.ok prompt, fsA) =>
      match env.generate self.model self.processor prompt image_path stdGenParams fsA with
      | (Except.error e, fsB) =>
          (Except.error e, fsB,
            [Event.templateCall self.processor self.config question 1,
             Event.genCall self.model self.processor prompt image_path stdGenParams])
      | (Except.ok output, fsB) =>
          (Except.ok output.text, fsB,
            [Event.templateCall self.processor self.config question 1,
             Event.genCall self.model self.processor prompt image_path stdGenParams])

/-- The `try ... finally` discipline of app.py lines 164-188: run the
cleanup step on whatever file system the body left behind, append its
event, and pass the body's outcome (value or error) through unchanged. -/
def tryFinallyCleanup (image_path : String)
    (body : Except E String × FS × List (Event M P C Q)) :
    Except E String × FS × List (Event M P C Q) :=
  (body.1, (cleanupTemp image_path body.2.1).1,
    body.2.2 ++ [Event.cleanup image_path (cleanupTemp image_path body.2.1).2])

/-- Everything a call to `analyze_image` produces: its return value or
propagated error, the final file system, the ordered collaborator-call
trace, and the service object as the call leaves it. -/
structure AnalyzeResult (M P C E Q : Type) where
  result : Except E String
  fs : FS
  trace : List (Event M P C Q)
  self_after : Gemma3VisionDemo M P C

/-- `Gemma3VisionDemo.analyze_image` (app.py lines 141-188), line by line:
absent image returns the advisory string with no further work; otherwise
apply the default-question policy, create the temporary file, save the
bitmap to it (outside the try-block, so a save failure propagates
without cleanup), then run the try-block body under the finally-block
cleanup. -/
def Gemma3VisionDemo.analyze_image (env : Env M P C E Q)
    (self : Gemma3VisionDemo M P C) (image : Option PILImage)
    (question : String) (fs : FS) : AnalyzeResult M P C E Q :=
  match image with
  | none =>
      { result := Except.ok ("Please upload an image first.")
        fs := fs
        trace := []
        self_after := self }
  | some img =>
      let question := effectiveQuestion question
      let image_path := env.tmpPath
      let fs1 : FS := image_path :: fs
      match env.save img image_path with
      | Except.error e =>
          { result := Except.error e
            fs := fs1
            trace := [Event.tmpCreate image_path, Event.saveCall image_path]
            self_after := self }
      | Except.ok _ =>
          let outcome := tryFinallyCleanup image_path (runBody env self question image_path fs1)
          { result := outcome.1
            fs := outcome.2.1
            trace := [Event.tmpCreate image_path, Event.saveCall image_path] ++ outcome.2.2
            self_after := self }

/-- The questions handed to the Prompt Formatter, in call order. -/
def templateQuestions (tr : List (Event M P C Q)) : List String :=
  tr.filterMap fun ev =>
    match ev with
    | Event.templateCall _ _ q _ => some q
    | _ => none

/-- The full argument tuples handed to the Prompt Formatter, in call order. -/
def templateCalls (tr : List (Event M P C Q)) : List (P × C × String × Nat) :=
  tr.filterMap fun ev =>
    match ev with
    | Event.templateCall p c q n => some (p, c, q, n)
    | _ => none

/-- Whether an event is a Generation Engine call with the fixed
parameters; non-generation events pass vacuously. -/
def genParamsOk (ev : Event M P C Q) : Bool :=
  match ev with
  | Event.genCall _ _ _ _ ps => decide (ps = stdGenParams)
  | _ => true

/-- Whether an event is the finally-block cleanup step. -/
def isCleanupEvent (ev : Event M P C Q) : Bool :=
  match ev with
  | Event.cleanup _ _ => true
  | _ => false

/-- How many times the finally-block cleanup step ran. -/
def cleanupCount (tr : List (Event M P C Q)) : Nat :=
  (tr.filter isCleanupEvent).length

/-- Whether the last recorded event is the cleanup step. -/
def endsWithCleanup (tr : List (Event M P C Q)) : Bool :=
  match tr.getLast? with
  | some (Event.cleanup _ _) => true
  | _ => false

/-- An array value at the mlx-vlm boundary: the attention mask arrives
either as a NumPy array or as an MLX array; both carry the same
underlying data. -/
inductive ArrayVal where
  | npArray (data : List Int)
  | mxArray (data : List Int)
  deriving DecidableEq

/-- Python `isinstance(attention_mask, mx.array)`. -/
def isMxArray : ArrayVal → Bool
  | ArrayVal.mxArray _ => true
  | ArrayVal.npArray _ => false

/-- Python `mx.array(attention_mask)`: build an MLX array holding the
same data. -/
def mxArrayOf : ArrayVal → ArrayVal
  | ArrayVal.npArray d => ArrayVal.mxArray d
  | ArrayVal.mxArray d => ArrayVal.mxArray d

/-- The monkey-patch wrapper (app.py lines 39-65): if the attention mask
is not an MLX array, convert it with `mx.array`, then call the original
`prepare_inputs_for_multimodal` with all other arguments unchanged.
The captured original is a parameter, since it is external library code. -/
def _patched_prepare_inputs_for_multimodal {A1 A2 A3 A4 A5 A6 R : Type}
    (_original_prepare : A1 → A2 → A3 → A4 → A5 → A6 → ArrayVal → R)
    (hidden_size : A1) (pad_token_id : A2) (image_token_index : A3)
    (image_features : A4) (inputs_embeds : A5) (input_ids : A6)
    (attention_mask : ArrayVal) : R :=
  let attention_mask :=
    if !(isMxArray attention_mask) then mxArrayOf attention_mask else attention_mask
  _original_prepare hidden_size pad_token_id image_token_index
    image_features inputs_embeds input_ids attention_mask

/-- Modelled from the spec (Design Notes §9): the type-coercion an
adapter must apply — "ensure the attention-mask argument is of the
numeric-array type the engine expects before the call", leaving a mask
already of that type as-is. -/
def coerceAttentionMask (m : ArrayVal) : ArrayVal :=
  if isMxArray m then m else mxArrayOf m

/-- A concrete instantiation of the opaque collaborator types (all
handles are strings), mirroring the mocked service the repository's
tests construct. -/
def demo0 : Gemma3VisionDemo String String String :=
  { model := "model-handle", processor := "processor-handle", config := "config-object" }

/-- The 100x100 red bitmap the repository's tests construct. -/
def img100 : PILImage := { width := 100, height := 100, color := "red" }

/-- A well-behaved concrete environment: saving succeeds, formatting
returns a fixed prompt, generation returns a fixed answer; neither
collaborator touches the file system. -/
def envOk : Env String String String String String :=
  { tmpPath := "/tmp/img.png"
    save := fun _ _ => Except.ok ()
    apply_chat_template := fun _ _ _ _ fs => (Except.ok ("formatted prompt"), fs)
    generate := fun _ _ _ _ _ fs => (Except.ok { text := "A red image" }, fs) }

/-- Like `envOk`, but persisting the bitmap fails. -/
def envSaveFail : Env String String String String String :=
  { envOk with save := fun _ _ => Except.error ("disk full") }

/-- Like `envOk`, but the Generation Engine raises. -/
def envGenFail : Env String String String String String :=
  { envOk with generate := fun _ _ _ _ _ fs => (Except.error ("Generation failed"), fs) }

theorem cleanupTemp_fst_not_mem (image_path : String) (fs : FS) :
    image_path ∉ (cleanupTemp image_path fs).1 := by
  unfold cleanupTemp
  split
  next h => simp [List.mem_filter]
  next h => simpa using h

theorem cleanupCount_append (a b : List (Event M P C Q)) :
    cleanupCount (a ++ b) = cleanupCount a + cleanupCount b := by
  unfold cleanupCount
  rw [List.filter_append, List.length_append]

theorem endsWithCleanup_append_cleanup (tr : List (Event M P C Q)) (p : String) (b : Bool) :
    endsWithCleanup (tr ++ [Event.cleanup p b]) = true := by
  unfold endsWithCleanup
  rw [List.getLast?_concat]

theorem runBody_templateCalls (env : Env M P C E Q) (self : Gemma3VisionDemo M P C)
    (question image_path : String) (fs : FS) :
    templateCalls (runBody env self question image_path fs).2.2
      = [(self.processor, self.config, question, 1)] := by
  unfold runBody
  split
  · simp [templateCalls]
  · split <;> simp [templateCalls]

theorem runBody_templateQuestions (env : Env M P C E Q) (self : Gemma3VisionDemo M P C)
    (question image_path : String) (fs : FS) :
    templateQuestions (runBody env self question image_path fs).2.2 = [question] := by
  unfold runBody
  split
  · simp [templateQuestions]
  · split <;> simp [templateQuestions]

theorem runBody_cleanupCount (env : Env M P C E Q) (self : Gemma3VisionDemo M P C)
    (question image_path : String) (fs : FS) :
    cleanupCount (runBody env self question image_path fs).2.2 = 0 := by
  unfold runBody
  split
  · simp [cleanupCount, isCleanupEvent]
  · split <;> simp [cleanupCount, isCleanupEvent]

theorem runBody_genParamsOk (env : Env M P C E Q) (self : Gemma3VisionDemo M P C)
    (question image_path : String) (fs : FS) :
    (runBody env self question image_path fs).2.2.all genParamsOk = true := by
  unfold runBody
  split
  · simp [genParamsOk]
  · split <;> simp [genParamsOk]

/-- C2: for every call to `analyze_image` with `image` absent and any
`question`, the call returns exactly the string
"Please upload an image first.", leaves the file system unchanged, makes
no collaborator call at all (so no temporary file is created and neither
the Prompt Formatter nor the Generation Engine is invoked), and leaves
the service object unchanged. -/
theorem analyze_image_absent_image (env : Env M P C E Q)
    (self : Gemma3VisionDemo M P C) (question : String) (fs : FS) :
    Gemma3VisionDemo.analyze_image env self none question fs
      = { result := Except.ok ("Please upload an image first.")
          fs := fs
          trace := []
          self_after := self } := rfl

/-- C9: every call to `analyze_image` leaves the stored Model Handle,
Preprocessor Handle and Model Configuration unchanged: the service
object after any call is exactly the one the call started with. -/
theorem analyze_image_preserves_handles (env : Env M P C E Q)
    (self : Gemma3VisionDemo M P C) (image : Option PILImage)
    (question : String) (fs : FS) :
    (Gemma3VisionDemo.analyze_image env self image question fs).self_after = self := by
  unfold Gemma3VisionDemo.analyze_image
  cases image with
  | none => rfl
  | some img =>
      cases h : env.save img env.tmpPath with
      | error e => simp [h]
      | ok u => simp [h]

/-- C8: at cleanup time, deletion is attempted if and only if the
temporary path is observed to still exist (the recorded flag is exactly
the existence test); the body's outcome (value or error) passes through
the finally-step unchanged; and when the file is already absent at
cleanup the file system is left untouched (no error arises). -/
theorem tryFinallyCleanup_cleanup_policy (image_path : String)
    (body : Except E String × FS × List (Event M P C Q)) :
    (tryFinallyCleanup image_path body).1 = body.1
    ∧ (tryFinallyCleanup image_path body).2.2
        = body.2.2 ++ [Event.cleanup image_path (decide (image_path ∈ body.2.1))]
    ∧ (image_path ∉ body.2.1 → (tryFinallyCleanup image_path body).2.1 = body.2.1) := by
  refine ⟨rfl, ?_, ?_⟩
  · unfold tryFinallyCleanup cleanupTemp
    split
    next h => simp [h]
    next h => simp [h]
  · intro hnot
    unfold tryFinallyCleanup cleanupTemp
    split
    next h => exact absurd h hnot
    next h => rfl

/-- Concrete check of the cleanup policy with the file already absent:
the file system is passed through untouched. -/
theorem tryFinallyCleanup_cleanup_policy_witness :
    (tryFinallyCleanup ("/tmp/img.png")
        ((Except.ok ("answer") : Except String String), (["/other.txt"] : FS),
          ([] : List (Event String String String String)))).2.1 = ["/other.txt"] :=
  (tryFinallyCleanup_cleanup_policy ("/tmp/img.png")
      ((Except.ok ("answer") : Except String String), (["/other.txt"] : FS),
        ([] : List (Event String String String String)))).2.2 (by decide)

/-- C10: for every argument tuple, the patched
`prepare_inputs_for_multimodal` returns exactly what the original
returns on the same arguments with the attention mask coerced to the
`mx.array` type when it is not already of that type; all other arguments
are passed through unchanged, and a mask already of type `mx.array` is
passed through as-is. -/
theorem patched_prepare_inputs_refines_coercion {A1 A2 A3 A4 A5 A6 R : Type}
    (_original_prepare : A1 → A2 → A3 → A4 → A5 → A6 → ArrayVal → R)
    (a1 : A1) (a2 : A2) (a3 : A3) (a4 : A4) (a5 : A5) (a6 : A6)
    (attention_mask : ArrayVal) :
    _patched_prepare_inputs_for_multimodal _original_prepare a1 a2 a3 a4 a5 a6 attention_mask
      = _original_prepare a1 a2 a3 a4 a5 a6 (coerceAttentionMask attention_mask)
    ∧ (∀ d, coerceAttentionMask (ArrayVal.mxArray d) = ArrayVal.mxArray d) := by
  constructor
  · cases attention_mask <;> rfl
  · intro d
    rfl

theorem templateQuestions_append (a b : List (Event M P C Q)) :
    templateQuestions (a ++ b) = templateQuestions a ++ templateQuestions b := by
  unfold templateQuestions
  rw [List.filterMap_append]

theorem templateCalls_append (a b : List (Event M P C Q)) :
    templateCalls (a ++ b) = templateCalls a ++ templateCalls b := by
  unfold templateCalls
  rw [List.filterMap_append]

theorem analyze_image_save_ok_eq (env : Env M P C E Q)
    (self : Gemma3VisionDemo M P C) (img : PILImage) (question : String) (fs : FS)
    (hsave : env.save img env.tmpPath = Except.ok ()) :
    Gemma3VisionDemo.analyze_image env self (some img) question fs
      = { result := (runBody env self (effectiveQuestion question) env.tmpPath (env.tmpPath :: fs)).1
          fs := (cleanupTemp env.tmpPath
              (runBody env self (effectiveQuestion question) env.tmpPath (env.tmpPath :: fs)).2.1).1
          trace := [Event.tmpCreate env.tmpPath, Event.saveCall env.tmpPath]
              ++ ((runBody env self (effectiveQuestion question) env.tmpPath (env.tmpPath :: fs)).2.2
                ++ [Event.cleanup env.tmpPath
                      (cleanupTemp env.tmpPath
                        (runBody env self (effectiveQuestion question) env.tmpPath
                          (env.tmpPath :: fs)).2.1).2])
          self_after := self } := by
  unfold Gemma3VisionDemo.analyze_image
  simp only [hsave, tryFinallyCleanup]

theorem runBody_ok (env : Env M P C E Q) (self : Gemma3VisionDemo M P C)
    (question image_path : String) (fs : FS) (prompt : Q) (fsA : FS)
    (output : GenResult) (fsB : FS)
    (ht : env.apply_chat_template self.processor self.config question 1 fs
        = (Except.ok prompt, fsA))
    (hg : env.generate self.model self.processor prompt image_path stdGenParams fsA
        = (Except.ok output, fsB)) :
    runBody env self question image_path fs
      = (Except.ok output.text, fsB,
          [Event.templateCall self.processor self.config question 1,
           Event.genCall self.model self.processor prompt image_path stdGenParams]) := by
  unfold runBody
  rw [ht]
  simp only [hg]

/-- C1 (counterexample to the claim as stated): with a present image, if
persisting the bitmap raises (here: PIL `save` fails with "disk full"),
`analyze_image` propagates the error but the temporary file created in
step 3 is still on disk after the call — `image.save` runs before the
try/finally block, so the cleanup never executes on this exit path. -/
theorem analyze_image_save_failure_leaks_temp_file :
    (Gemma3VisionDemo.analyze_image envSaveFail demo0 (some img100) ("What is this?") []).result
        = Except.error ("disk full")
    ∧ ("/tmp/img.png")
        ∈ (Gemma3VisionDemo.analyze_image envSaveFail demo0 (some img100) ("What is this?") []).fs := by
  constructor
  · rfl
  · decide

/-- C1 (amended): for every call to `analyze_image` with a present image
in which persisting the bitmap succeeds, the temporary image path does
not exist on disk after the call completes, whatever the prompt
formatting and generation calls do to the file system and whether they
return or raise. -/
theorem analyze_image_temp_deleted_of_save_ok (env : Env M P C E Q)
    (self : Gemma3VisionDemo M P C) (img : PILImage) (question : String)
    (fs : FS) (hsave : env.save img env.tmpPath = Except.ok ()) :
    env.tmpPath ∉ (Gemma3VisionDemo.analyze_image env self (some img) question fs).fs := by
  rw [analyze_image_save_ok_eq env self img question fs hsave]
  exact cleanupTemp_fst_not_mem _ _

/-- Concrete check: after a successful call the temporary path is gone. -/
theorem analyze_image_temp_deleted_of_save_ok_witness :
    ("/tmp/img.png")
      ∉ (Gemma3VisionDemo.analyze_image envOk demo0 (some img100) ("What is this?") []).fs :=
  analyze_image_temp_deleted_of_save_ok envOk demo0 img100 ("What is this?") [] (by rfl)

/-- C3: for every call with a present image whose bitmap persists
successfully and a question whose trimmed form is empty, the question
handed to the Prompt Formatter is exactly "Describe this image in
detail." (and the Formatter is called once). -/
theorem analyze_image_default_question (env : Env M P C E Q)
    (self : Gemma3VisionDemo M P C) (img : PILImage) (question : String)
    (fs : FS) (hsave : env.save img env.tmpPath = Except.ok ())
    (hq : pyStrip question = "") :
    templateQuestions (Gemma3VisionDemo.analyze_image env self (some img) question fs).trace
      = [("Describe this image in detail.")] := by
  rw [analyze_image_save_ok_eq env self img question fs hsave]
  rw [templateQuestions_append, templateQuestions_append, runBody_templateQuestions]
  simp [templateQuestions, effectiveQuestion, hq]

/-- Concrete check: a whitespace-only question is replaced by the
default question before reaching the Prompt Formatter. -/
theorem analyze_image_default_question_witness :
    templateQuestions
        (Gemma3VisionDemo.analyze_image envOk demo0 (some img100) ("   ") []).trace
      = [("Describe this image in detail.")] :=
  analyze_image_default_question envOk demo0 img100 ("   ") [] (by rfl) (by decide)

/-- C4: for every call with a present image whose bitmap persists
successfully and a question whose trimmed form is non-empty, the
question handed to the Prompt Formatter is the original question string
exactly, untrimmed and unmodified. -/
theorem analyze_image_nonblank_question_passthrough (env : Env M P C E Q)
    (self : Gemma3VisionDemo M P C) (img : PILImage) (question : String)
    (fs : FS) (hsave : env.save img env.tmpPath = Except.ok ())
    (hq : pyStrip question ≠ "") :
    templateQuestions (Gemma3VisionDemo.analyze_image env self (some img) question fs).trace
      = [question] := by
  rw [analyze_image_save_ok_eq env self img question fs hsave]
  rw [templateQuestions_append, templateQuestions_append, runBody_templateQuestions]
  simp [templateQuestions, effectiveQuestion, hq]

/-- Concrete check: a question with leading and trailing whitespace but
non-empty trimmed form is passed through verbatim. -/
theorem analyze_image_nonblank_question_passthrough_witness :
    templateQuestions
        (Gemma3VisionDemo.analyze_image envOk demo0 (some img100) ("  What is this?  ") []).trace
      = [("  What is this?  ")] :=
  analyze_image_nonblank_question_passthrough envOk demo0 img100 ("  What is this?  ") []
    (by rfl) (by decide)

/-- C5: on every invocation of the Generation Engine by `analyze_image`,
the generation parameters are the fixed constants `verbose = False`,
`max_tokens = 300`, `temperature = 0.0` (`stdGenParams`), independent of
the image and question inputs: in the trace of any call whatsoever,
every Generation Engine event carries `stdGenParams`. -/
theorem analyze_image_gen_params_fixed (env : Env M P C E Q)
    (self : Gemma3VisionDemo M P C) (image : Option PILImage)
    (question : String) (fs : FS) :
    ((Gemma3VisionDemo.analyze_image env self image question fs).trace.all genParamsOk) = true := by
  cases image with
  | none => rfl
  | some img =>
      cases h : env.save img env.tmpPath with
      | error e =>
          unfold Gemma3VisionDemo.analyze_image
          simp [h, genParamsOk]
      | ok u =>
          unfold Gemma3VisionDemo.analyze_image
          simp [h, tryFinallyCleanup, genParamsOk,
            runBody_genParamsOk env self (effectiveQuestion question) env.tmpPath
              (env.tmpPath :: fs)]

/-- C6: for every call with a present image in which saving, prompt
formatting and generation all succeed, the Prompt Formatter is invoked
exactly once, with the stored Preprocessor Handle, the stored Model
Configuration, the effective question and image count 1, and the value
returned by `analyze_image` is exactly the `text` field of the
Generation Engine's result. -/
theorem analyze_image_success_flow (env : Env M P C E Q)
    (self : Gemma3VisionDemo M P C) (img : PILImage) (question : String)
    (fs : FS) (prompt : Q) (fsA : FS) (output : GenResult) (fsB : FS)
    (hsave : env.save img env.tmpPath = Except.ok ())
    (ht : env.apply_chat_template self.processor self.config (effectiveQuestion question) 1
        (env.tmpPath :: fs) = (Except.ok prompt, fsA))
    (hg : env.generate self.model self.processor prompt env.tmpPath stdGenParams fsA
        = (Except.ok output, fsB)) :
    (Gemma3VisionDemo.analyze_image env self (some img) question fs).result
        = Except.ok output.text
    ∧ templateCalls (Gemma3VisionDemo.analyze_image env self (some img) question fs).trace
        = [(self.processor, self.config, effectiveQuestion question, 1)] := by
  rw [analyze_image_save_ok_eq env self img question fs hsave]
  constructor
  · rw [runBody_ok env self (effectiveQuestion question) env.tmpPath (env.tmpPath :: fs)
      prompt fsA output fsB ht hg]
  · rw [templateCalls_append, templateCalls_append, runBody_templateCalls]
    simp [templateCalls]

/-- Concrete check of the successful end-to-end scenario: a 100x100 red
bitmap with question "What is this?" invokes the Formatter once with the
stored handles and that question, and the engine's text is returned. -/
theorem analyze_image_success_flow_witness :
    (Gemma3VisionDemo.analyze_image envOk demo0 (some img100) ("What is this?") []).result
        = Except.ok ("A red image")
    ∧ templateCalls
        (Gemma3VisionDemo.analyze_image envOk demo0 (some img100) ("What is this?") []).trace
        = [(("processor-handle"), ("config-object"), ("What is this?"), 1)] :=
  analyze_image_success_flow envOk demo0 img100 ("What is this?") []
    ("formatted prompt") ["/tmp/img.png"] { text := "A red image" } ["/tmp/img.png"]
    (by rfl) (by rfl) (by rfl)

/-- C7: for every call with a present image whose bitmap persists
successfully, if the try-block body (prompt formatting or generation)
raises an error, `analyze_image` re-raises exactly that error, and the
cleanup step has executed exactly once, as the last recorded action
before the error reaches the caller. -/
theorem analyze_image_error_propagation (env : Env M P C E Q)
    (self : Gemma3VisionDemo M P C) (img : PILImage) (question : String)
    (fs : FS) (e : E)
    (hsave : env.save img env.tmpPath = Except.ok ())
    (hbody : (runBody env self (effectiveQuestion question) env.tmpPath (env.tmpPath :: fs)).1
        = Except.error e) :
    (Gemma3VisionDemo.analyze_image env self (some img) question fs).result = Except.error e
    ∧ cleanupCount (Gemma3VisionDemo.analyze_image env self (some img) question fs).trace = 1
    ∧ endsWithCleanup (Gemma3VisionDemo.analyze_image env self (some img) question fs).trace
        = true := by
  rw [analyze_image_save_ok_eq env self img question fs hsave]
  refine ⟨hbody, ?_, ?_⟩
  · rw [cleanupCount_append, cleanupCount_append, runBody_cleanupCount]
    rfl
  · rw [← List.append_assoc]
    exact endsWithCleanup_append_cleanup _ _ _

/-- Concrete check: when the Generation Engine raises, the same error is
re-raised and the cleanup ran exactly once, last. -/
theorem analyze_image_error_propagation_witness :
    (Gemma3VisionDemo.analyze_image envGenFail demo0 (some img100) ("Test") []).result
        = Except.error ("Generation failed")
    ∧ cleanupCount
        (Gemma3VisionDemo.analyze_image envGenFail demo0 (some img100) ("Test") []).trace = 1
    ∧ endsWithCleanup
        (Gemma3VisionDemo.analyze_image envGenFail demo0 (some img100) ("Test") []).trace
        = true :=
  analyze_image_error_propagation envGenFail demo0 img100 ("Test") [] ("Generation failed")
    (by rfl) (by rfl)
